import Mathlib

/-!
Verification development for the observing-script runner (the Observe class:
script tokenizing, parsing, and the sequential execution engine).

The definitions below are a shallow embedding of the Python source:
  - the tokenizer is the external azcam.utils.parse helper, modelled from the
    specification (section 4.1) since its code is not part of this repository;
  - readLines models Observe.read_file's line filtering (observe.py 230-238);
  - parseHead / dispatch / obsFields / lookahead / parseOne / parse model
    Observe.parse (observe.py 240-448);
  - outLine / runAux / runLoop model the per-line output writing and the
    stop/continue decision of Observe.run (observe.py 593-695);
  - executeCommand with its phases models Observe.execute_command
    (observe.py 697-965).

Modelling conventions, stated once:
  - Machine floats are never computed with by any claim under study, so
    numeric script fields that Python converts with float() (exposure time,
    focus, delay argument, the 2000.0 epoch default) are carried as their
    token strings; the only numeric conversions a claim can observe
    (int status codes, int exposure counts, list indexing) are modelled
    exactly, including their failure modes.
  - Python exceptions are explicit values: parse failures are PErr
    (IndexError / ValueError with the offending line number) and
    execute-time failures are PyExc (NameError for unbound local names,
    azcamError for an uncaught device exception).
  - Device interaction is an oracle (Api) mapping each device call to
    either a reply string or a raised AzcamError detail string; the calls
    actually issued are recorded in order so that theorems can speak about
    which hardware actions a command performs.
  - The run loop is modelled for a single cycle with no operator abort, no
    keyboard input and GuiMode off (the configuration exercised by
    Observe.observe); the reply of execute_command is abstracted as a
    function from line number to reply string.  The pipelined
    move-telescope-during-readout branch (observe.py 898-955) is not
    modelled: the attribute defaults to 0 (observe.py 62) and no claim
    under study depends on it.
-/

/-- Whitespace strip from both ends, as Python str.strip(). -/
def pyStrip (s : String) : String :=
  String.mk (((s.toList.dropWhile Char.isWhitespace).reverse.dropWhile
    Char.isWhitespace).reverse)

/-- Python str.lstrip(cut): drop leading characters that occur in cut. -/
def pyLstripSet (s : String) (cut : String) : String :=
  String.mk (s.toList.dropWhile (fun c => cut.toList.contains c))

/-- Python tok.strip of the double-quote character, from both ends. -/
def pyStripQuotes (s : String) : String :=
  String.mk (((s.toList.dropWhile (fun c => c == '"')).reverse.dropWhile
    (fun c => c == '"')).reverse)

/-- Prefix test on character lists, first argument the string, second the
candidate leading characters. -/
def leadsWith : List Char → List Char → Bool
  | _, [] => true
  | [], _ :: _ => false
  | c :: cs, p :: ps => c == p && leadsWith cs ps

/-- Python str.startswith. -/
def pyStartsWith (s pre : String) : Bool :=
  leadsWith s.toList pre.toList

/-- Python s[n:] character slicing. -/
def pyDrop (s : String) (n : Nat) : String :=
  String.mk (s.toList.drop n)

/-- Python str.lower. -/
def pyLower (s : String) : String :=
  String.mk (s.toList.map Char.toLower)

/-- Python str.isdigit: nonempty and every character a decimal digit. -/
def pyIsdigit (s : String) : Bool :=
  !s.toList.isEmpty && s.toList.all Char.isDigit

/-- Decimal value of a digit list, as read by Python int() on digit strings. -/
def digitsVal (l : List Char) : Nat :=
  l.foldl (fun acc c => acc * 10 + (c.toNat - 48)) 0

/-- Python int(s): optional sign followed by digits, after stripping
whitespace; none models a ValueError. -/
def pyInt? (s : String) : Option Int :=
  match (pyStrip s).toList with
  | [] => none
  | '-' :: r =>
    if !r.isEmpty && r.all Char.isDigit then some (-(digitsVal r : Int)) else none
  | '+' :: r =>
    if !r.isEmpty && r.all Char.isDigit then some ((digitsVal r : Int)) else none
  | l =>
    if l.all Char.isDigit then some ((digitsVal l : Int)) else none

/-- Tokenizer worker: current input, accumulated token (reversed), inside-quote
flag.  Modelled from the spec: azcam.utils.parse splits a line on runs of
whitespace, a double quote opens a token that extends over embedded whitespace
to the matching close quote, and the quote characters themselves are stripped;
an empty line yields an empty token sequence. -/
def tokenizeAux : List Char → List Char → Bool → List String
  | [], acc, _ =>
    if acc.isEmpty then [] else [String.mk acc.reverse]
  | ch :: rest, acc, true =>
    if ch == '"' then tokenizeAux rest acc false
    else tokenizeAux rest (ch :: acc) true
  | ch :: rest, acc, false =>
    if ch == '"' then tokenizeAux rest acc true
    else if ch.isWhitespace then
      if acc.isEmpty then tokenizeAux rest [] false
      else String.mk acc.reverse :: tokenizeAux rest [] false
    else tokenizeAux rest (ch :: acc) false

/-- Modelled from the spec: the line tokenizer azcam.utils.parse (section 4.1),
whose code lives in the external azcam package, not under this repository. -/
def tokenize (line : String) : List String :=
  tokenizeAux line.toList [] false

/-- Observe.read_file line filtering (observe.py 230-238): a raw file line
equal to the exact string of one newline is skipped; every other line is
stripped and kept. -/
def readLines (all_lines : List String) : List String :=
  all_lines.foldr
    (fun l acc => if l = "\n" then acc else pyStrip l :: acc) []

/-- Parse-time Python exceptions: IndexError from tokens[k] / lines[k]
indexing, ValueError from int() on a malformed token; each carries the
script line number being parsed. -/
inductive PErr where
  | indexError (lineno : Nat)
  | valueError (lineno : Nat)
  deriving Repr, DecidableEq

deriving instance DecidableEq for Except

/-- One parsed command: the data1 dictionary built by Observe.parse
(observe.py 424-446), with the same keys.  There is no next-epoch key:
the source computes epochNext but never stores it. -/
structure Cmd where
  line : String
  cmdnumber : Nat
  status : Int
  command : String
  argument : String
  exptime : String
  type : String
  title : String
  numexp : Int
  filter : String
  focus : String
  ra : String
  dec : String
  ra_next : String
  dec_next : String
  epoch : String
  expose_flag : Bool
  movetel_flag : Bool
  steptel_flag : Bool
  movefilter_flag : Bool
  movefocus_flag : Bool
  deriving Repr, DecidableEq

/-- Default field values, as initialized at the top of the parse loop
(observe.py 250-267). -/
def Cmd0 : Cmd where
  line := ""
  cmdnumber := 0
  status := 0
  command := ""
  argument := ""
  exptime := "0.0"
  type := ""
  title := ""
  numexp := 0
  filter := ""
  focus := ""
  ra := ""
  dec := ""
  ra_next := ""
  dec_next := ""
  epoch := ""
  expose_flag := false
  movetel_flag := false
  steptel_flag := false
  movefilter_flag := false
  movefocus_flag := false

/-- Python tokens[k]: the token at k or an IndexError naming the current
script line. -/
def tokAt (ln : Nat) (toks : List String) (k : Nat) : Except PErr String :=
  match toks.get? k with
  | some t => Except.ok t
  | none => Except.error (PErr.indexError ln)

/-- Line starts a comment: prefix # or ! or the literal word comment
(observe.py 272). -/
def isCommentStart (line : String) : Bool :=
  pyStartsWith line "#" || pyStartsWith line "!" || pyStartsWith line "comment"

/-- Comment / status-code handling of Observe.parse (observe.py 269-284).
Returns (status, line, tokens, cmd, arg): a comment line keeps status 0 and
takes the remainder after its first character as argument; a line whose first
token is all digits records that token as the status, lstrips the token's
characters off the line, re-trims, and drops the token; any other line gets
the absent-status sentinel -1.  Indexing an empty token list is the
IndexError the source would raise. -/
def parseHead (ln : Nat) (line : String) :
    Except PErr (Int × String × List String × String × String) :=
  let tokens := tokenize line
  if isCommentStart line then
    Except.ok (0, line, tokens, "comment", pyStrip (pyDrop line 1))
  else
    match tokens.get? 0 with
    | none => Except.error (PErr.indexError ln)
    | some t0 =>
      if pyIsdigit t0 then
        match (tokens.drop 1).get? 0 with
        | none => Except.error (PErr.indexError ln)
        | some c0 =>
          Except.ok ((digitsVal t0.toList : Int),
            pyStrip (pyLstripSet line t0), tokens.drop 1, pyLower c0, "")
      else
        Except.ok (-1, line, tokens, pyLower t0, "")

/-- Field extraction for obs / test lines (observe.py 306-353): positions
1-4 are exposure time, image type, quoted title, exposure count; an optional
5th token is the filter; optional tokens 6/7 are ra/dec with token 8 the
epoch, defaulting to 2000.0 when absent. -/
def obsFields (ln : Nat) (tokens : List String) : Except PErr Cmd := do
  let et ← tokAt ln tokens 1
  let it ← tokAt ln tokens 2
  let ti ← tokAt ln tokens 3
  let ne ← tokAt ln tokens 4
  let nexp ← match pyInt? ne with
    | some n => Except.ok n
    | none => Except.error (PErr.valueError ln)
  let c0 := { Cmd0 with
    exptime := et, type := it, title := pyStripQuotes ti,
    numexp := nexp, expose_flag := true }
  let c1 ← if 5 < tokens.length then do
      let w ← tokAt ln tokens 5
      pure { c0 with filter := pyStripQuotes w, movefilter_flag := true }
    else pure c0
  if 6 < tokens.length then do
    let r ← tokAt ln tokens 6
    let d ← tokAt ln tokens 7
    let e ← if 8 < tokens.length then tokAt ln tokens 8 else pure "2000.0"
    pure { c1 with ra := r, dec := d, epoch := e, movetel_flag := true }
  else
    pure c1

/-- Field extraction for movetel and slewtel lines (observe.py 369-382):
positions 1-3 are ra, dec, epoch. -/
def movetelFields (ln : Nat) (tokens : List String) : Except PErr Cmd := do
  let r ← tokAt ln tokens 1
  let d ← tokAt ln tokens 2
  let e ← tokAt ln tokens 3
  pure { Cmd0 with ra := r, dec := d, epoch := e, movetel_flag := true }

/-- Command-word dispatch of Observe.parse (observe.py 287-403), producing
the per-kind fields.  Note that a steptel line stores its two tokens as
ra/dec and raises movetel_flag, leaving steptel_flag false (observe.py
385-391); an unrecognized word is only logged and produces default fields. -/
def dispatch (ln : Nat) (cmd arg0 : String) (tokens : List String) :
    Except PErr Cmd :=
  if cmd = "comment" then Except.ok { Cmd0 with argument := arg0 }
  else if cmd = "prompt" then do
    let a ← tokAt ln tokens 1
    pure { Cmd0 with argument := a }
  else if cmd = "print" then do
    let a ← tokAt ln tokens 1
    pure { Cmd0 with argument := a }
  else if cmd = "azcam" then do
    let a ← tokAt ln tokens 1
    pure { Cmd0 with argument := a }
  else if cmd = "obs" then obsFields ln tokens
  else if cmd = "test" then obsFields ln tokens
  else if cmd = "stepfocus" then do
    let f ← tokAt ln tokens 1
    pure { Cmd0 with focus := f, movefocus_flag := true }
  else if cmd = "movefilter" then do
    let w ← tokAt ln tokens 1
    pure { Cmd0 with filter := w, movefilter_flag := true }
  else if cmd = "movetel" then movetelFields ln tokens
  else if cmd = "slewtel" then movetelFields ln tokens
  else if cmd = "steptel" then do
    let r ← tokAt ln tokens 1
    let d ← tokAt ln tokens 2
    pure { Cmd0 with ra := r, dec := d, movetel_flag := true }
  else if cmd = "delay" then do
    let a ← tokAt ln tokens 1
    pure { Cmd0 with argument := a }
  else if cmd = "quit" then Except.ok Cmd0
  else Except.ok Cmd0

/-- Look-ahead of Observe.parse (observe.py 405-422): for a non-final line,
tokenize the following line; when its first token lower-cases to obs and it
has more than 6 tokens, read tokens 6, 7 and 8 (ra, dec, epoch of the next
field).  Only ra and dec are returned - the epoch is read into a local the
source never stores - and reading token 8 of a 7- or 8-token obs line is the
IndexError the source would raise. -/
def lookahead (lines : List String) (i : Nat) : Except PErr (String × String) :=
  if i = lines.length - 1 then Except.ok ("", "")
  else
    match lines.get? (i + 1) with
    | none => Except.error (PErr.indexError i)
    | some lineNext =>
      let toks := tokenize lineNext
      if toks.length ≠ 0 then
        if pyLower (toks.headD "") = "obs" ∧ 6 < toks.length then
          match toks.get? 6, toks.get? 7, toks.get? 8 with
          | some r, some d, some _e => Except.ok (r, d)
          | _, _, _ => Except.error (PErr.indexError i)
        else Except.ok ("", "")
      else Except.ok ("", "")

/-- One iteration of the parse loop (observe.py 248-446): comment/status
handling, command dispatch, look-ahead, then assembly of the data1 record. -/
def parseOne (lines : List String) (ln : Nat) (line : String) :
    Except PErr Cmd :=
  match parseHead ln line with
  | Except.error e => Except.error e
  | Except.ok (status, line1, tokens, cmd, arg0) =>
    match dispatch ln cmd arg0 tokens with
    | Except.error e => Except.error e
    | Except.ok f =>
      match lookahead lines ln with
      | Except.error e => Except.error e
      | Except.ok (raN, decN) =>
        Except.ok { f with
          line := line1, cmdnumber := ln, status := status,
          command := cmd, ra_next := raN, dec_next := decN }

/-- Parse loop worker over the remaining lines starting at index i. -/
def parseAux (lines : List String) : Nat → List String → Except PErr (List Cmd)
  | _, [] => Except.ok []
  | i, l :: rest =>
    match parseOne lines i l with
    | Except.error e => Except.error e
    | Except.ok c =>
      match parseAux lines (i + 1) rest with
      | Except.error e => Except.error e
      | Except.ok cs => Except.ok (c :: cs)

/-- Observe.parse (observe.py 240-448): the ordered command sequence, or the
first Python exception the loop would raise. -/
def parse (lines : List String) : Except PErr (List Cmd) :=
  parseAux lines 0 lines

/-- A device interaction made by execute_command, in the order the source
issues them.  prompt records the operator acknowledgment request raised by
azcam.utils.prompt in the slewtel branch. -/
inductive DevCall where
  | stepFocus (arg : String)
  | setFilter (w : String)
  | getFilter
  | rcommand (s : String)
  | setPar (k : String) (v : Int)
  | getImageFilename
  | expose (et it title : String)
  | prompt (msg : String)
  deriving Repr, DecidableEq

/-- The control-API oracle: each device call either returns a reply string
or raises an AzcamError with a detail string. -/
def Api : Type := DevCall → Except String String

/-- Execute-time Python exceptions that escape execute_command:
nameError models the NameError raised on an unbound local name (raoffset,
decoffset, focus, offsets), azcamError an AzcamError from an unwrapped
device call. -/
inductive PyExc where
  | nameError (n : String)
  | azcamError (msg : String)
  deriving Repr, DecidableEq

/-- The engine state consulted by execute_command: the debug dry-run flag,
the cached current filter, and the GUI abort flag polled between device
calls. -/
structure ObsState where
  debug : Bool
  current_filter : String
  abort_gui : Bool
  deriving Repr, DecidableEq

/-- Outcome of execute_command: the reply (or the uncaught exception), the
device calls issued, and the current-filter cache afterwards. -/
structure ExecOut where
  result : Except PyExc String
  calls : List DevCall
  current_filter : String
  deriving Repr

/-- The exposure loop of execute_command (observe.py 867-963), non-pipelined
path, iterating over the remaining exposure count.  A raised steptel_flag
reads the unbound name offsets, the imagetest parameter set, the filename
query and the blocking expose are unwrapped device calls whose AzcamError
propagates, and the GUI abort flag is polled after each exposure. -/
def exposeLoop (api : Api) (st : ObsState) (c : Cmd) :
    Nat → List DevCall → List DevCall × Except PyExc String
  | 0, calls => (calls, Except.ok "OK")
  | n + 1, calls =>
    if c.steptel_flag then (calls, Except.error (PyExc.nameError "offsets"))
    else
      let pv : Int := if c.command ≠ "test" then 0 else 1
      match api (DevCall.setPar "imagetest" pv) with
      | Except.error e =>
        (calls ++ [DevCall.setPar "imagetest" pv], Except.error (PyExc.azcamError e))
      | Except.ok _ =>
        let calls := calls ++ [DevCall.setPar "imagetest" pv, DevCall.getImageFilename]
        match api DevCall.getImageFilename with
        | Except.error e => (calls, Except.error (PyExc.azcamError e))
        | Except.ok _ =>
          let calls := calls ++ [DevCall.expose c.exptime c.type c.title]
          match api (DevCall.expose c.exptime c.type c.title) with
          | Except.error e => (calls, Except.error (PyExc.azcamError e))
          | Except.ok _ =>
            if st.abort_gui then (calls, Except.ok "STOP")
            else exposeLoop api st c n calls

/-- The expose_flag action (observe.py 867-963): run the exposure loop for
numexp repetitions, then reply OK. -/
def exposePhase (api : Api) (st : ObsState) (c : Cmd) (calls : List DevCall)
    (curF : String) : ExecOut :=
  if c.expose_flag then
    let r := exposeLoop api st c c.numexp.toNat calls
    { result := r.2, calls := r.1, current_filter := curF }
  else
    { result := Except.ok "OK", calls := calls, current_filter := curF }

/-- The movetel_flag action (observe.py 857-864): issue the absolute
pointing raw command; this call site is wrapped, so an AzcamError becomes an
ERROR reply. -/
def telPhase (api : Api) (st : ObsState) (c : Cmd) (calls : List DevCall)
    (curF : String) : ExecOut :=
  if c.movetel_flag then
    let s := "telescope.move " ++ c.ra ++ " " ++ c.dec ++ " " ++ c.epoch
    match api (DevCall.rcommand s) with
    | Except.error e =>
      { result := Except.ok ("ERROR " ++ e), calls := calls ++ [DevCall.rcommand s],
        current_filter := curF }
    | Except.ok _ => exposePhase api st c (calls ++ [DevCall.rcommand s]) curF
  else exposePhase api st c calls curF

/-- The movefilter_flag action (observe.py 846-855): move only when the
requested filter differs from the cache; set_filter and get_filter are
unwrapped, so an AzcamError propagates; on success the cache takes the
device's confirmation. -/
def filterPhase (api : Api) (st : ObsState) (c : Cmd) (calls : List DevCall) :
    ExecOut :=
  if c.movefilter_flag then
    if c.filter = st.current_filter then
      telPhase api st c calls st.current_filter
    else
      match api (DevCall.setFilter c.filter) with
      | Except.error e =>
        { result := Except.error (PyExc.azcamError e),
          calls := calls ++ [DevCall.setFilter c.filter],
          current_filter := st.current_filter }
      | Except.ok _ =>
        match api DevCall.getFilter with
        | Except.error e =>
          { result := Except.error (PyExc.azcamError e),
            calls := calls ++ [DevCall.setFilter c.filter, DevCall.getFilter],
            current_filter := st.current_filter }
        | Except.ok f =>
          telPhase api st c (calls ++ [DevCall.setFilter c.filter, DevCall.getFilter]) f
  else telPhase api st c calls st.current_filter

/-- The flag-driven actions of execute_command (observe.py 828-965).  A
raised movefocus_flag first logs the unbound local name focus, which is the
NameError the source raises before any focus device call. -/
def flagsPhase (api : Api) (st : ObsState) (c : Cmd) (calls : List DevCall) :
    ExecOut :=
  if c.movefocus_flag then
    { result := Except.error (PyExc.nameError "focus"), calls := calls,
      current_filter := st.current_filter }
  else filterPhase api st c calls

/-- Observe.execute_command (observe.py 697-965) for GuiMode off.  Debug mode
short-circuits to OK.  The command-word chain mirrors the source order:
comment replies OK; obs/test/offset fall through to the flag actions;
stepfocus issues its unwrapped device call then falls through; movefilter
and movetel fall through; slewtel logs, blocks on the operator prompt and
returns OK (the cmd reassignment to movetel is dead code behind the return);
steptel logs the unbound locals raoffset/decoffset, a NameError; delay
sleeps and replies OK; azcam forwards its argument with AzcamError wrapped
as an ERROR reply; print and prompt reply OK; quit replies QUIT; an
unrecognized word is logged and falls through to the flag actions. -/
def executeCommand (api : Api) (st : ObsState) (c : Cmd) : ExecOut :=
  if st.debug then
    { result := Except.ok "OK", calls := [], current_filter := st.current_filter }
  else if c.command = "comment" then
    { result := Except.ok "OK", calls := [], current_filter := st.current_filter }
  else if c.command = "obs" then flagsPhase api st c []
  else if c.command = "test" then flagsPhase api st c []
  else if c.command = "offset" then flagsPhase api st c []
  else if c.command = "stepfocus" then
    match api (DevCall.stepFocus c.argument) with
    | Except.error e =>
      { result := Except.error (PyExc.azcamError e),
        calls := [DevCall.stepFocus c.argument],
        current_filter := st.current_filter }
    | Except.ok _ => flagsPhase api st c [DevCall.stepFocus c.argument]
  else if c.command = "movefilter" then flagsPhase api st c []
  else if c.command = "movetel" then flagsPhase api st c []
  else if c.command = "slewtel" then
    { result := Except.ok "OK", calls := [DevCall.prompt "Waiting..."],
      current_filter := st.current_filter }
  else if c.command = "steptel" then
    { result := Except.error (PyExc.nameError "raoffset"), calls := [],
      current_filter := st.current_filter }
  else if c.command = "delay" then
    { result := Except.ok "OK", calls := [], current_filter := st.current_filter }
  else if c.command = "azcam" then
    match api (DevCall.rcommand c.argument) with
    | Except.ok r =>
      { result := Except.ok r, calls := [DevCall.rcommand c.argument],
        current_filter := st.current_filter }
    | Except.error e =>
      { result := Except.ok ("ERROR " ++ e), calls := [DevCall.rcommand c.argument],
        current_filter := st.current_filter }
  else if c.command = "print" then
    { result := Except.ok "OK", calls := [], current_filter := st.current_filter }
  else if c.command = "prompt" then
    { result := Except.ok "OK", calls := [], current_filter := st.current_filter }
  else if c.command = "quit" then
    { result := Except.ok "QUIT", calls := [], current_filter := st.current_filter }
  else flagsPhase api st c []

/-- Command kinds that are never status-tracked in the output file
(observe.py 652-658). -/
def noStatusCmds : List String := ["comment", "print", "delay", "prompt", "quit"]

/-- The per-line output-file write of Observe.run (observe.py 652-674),
excluding the trailing newline.  Non-status kinds write the stored line with
a trailing blank; with increment_status on, the status (absent coerced to 0)
is written unchanged on a stop and incremented otherwise; with
increment_status off, a stop writes the stored line with no status at all,
and otherwise the original status (when present) is written back. -/
def outLine (incStatus : Bool) (c : Cmd) (stop : Bool) : String :=
  if noStatusCmds.contains c.command then c.line ++ " "
  else if incStatus then
    let st : Int := if c.status = -1 then 0 else c.status
    if stop then toString st ++ " " ++ c.line
    else toString (st + 1) ++ " " ++ c.line
  else
    if stop then c.line ++ " "
    else if c.status = -1 then c.line ++ " "
    else toString c.status ++ " " ++ c.line

/-- The verbatim copy of the lines never reached in a run (observe.py
686-689): each remaining stored line, re-stripped. -/
def stripTail (cs : List Cmd) : List String :=
  cs.map (fun c => pyStrip c.line)

/-- The command loop of Observe.run (observe.py 625-689) for one cycle, no
operator abort, no keyboard input and GuiMode off.  execFn abstracts the
reply of execute_command for each line number.  Returns the output-file
lines, the line numbers actually executed, and the line at which the run
stopped (none when it ran to the end).  Only a STOP or QUIT reply stops the
run; every other reply, ERROR replies included, is logged and the loop
continues. -/
def runAux (incStatus : Bool) (execFn : Nat → String) :
    Nat → List Cmd → List String × List Nat × Option Nat
  | _, [] => ([], [], none)
  | i, c :: rest =>
    let reply := execFn i
    if reply = "STOP" ∨ reply = "QUIT" then
      (outLine incStatus c true :: stripTail rest, [i], some i)
    else
      let r := runAux incStatus execFn (i + 1) rest
      (outLine incStatus c false :: r.1, i :: r.2.1, r.2.2)

/-- One cycle of Observe.run starting at line 0. -/
def runLoop (incStatus : Bool) (execFn : Nat → String) (cmds : List Cmd) :
    List String × List Nat × Option Nat :=
  runAux incStatus execFn 0 cmds

/-! Concrete inputs used by the claim theorems below. -/

/-- A control API on which every device call succeeds. -/
def apiOk : Api := fun _ => Except.ok "ok"

/-- A control API whose set_filter call raises an AzcamError. -/
def apiFilterJam : Api := fun dc =>
  match dc with
  | DevCall.setFilter _ => Except.error "filter jam"
  | _ => Except.ok "ok"

/-- A control API whose set_filter and telescope raw commands raise. -/
def apiC6w : Api := fun dc =>
  match dc with
  | DevCall.setFilter _ => Except.error "jam"
  | DevCall.rcommand _ => Except.error "tel fault"
  | _ => Except.ok "ok"

/-- Engine state with debug off, empty filter cache, no GUI abort. -/
def st0 : ObsState := { debug := false, current_filter := "", abort_gui := false }

/-- A two-line movetel script, parsed. -/
def cmdsC1 : List Cmd :=
  (parse ["movetel 1 2 3", "movetel 4 5 6"]).toOption.getD []

/-- The end-to-end scenario script of the spec: a status-5 movetel line
followed by a status-less obs line, parsed. -/
def cmdsC2 : List Cmd :=
  (parse ["5 movetel 10:00:00 +20:00:00 2000.0", "obs 1.0 bias \"x\" 1"]).toOption.getD []

/-- A status-tracked movetel command with an explicit status. -/
def cmdC2w1 : Cmd :=
  { Cmd0 with
    command := "movetel"
    line := "movetel 1 2 3"
    status := 5
    ra := "1"
    dec := "2"
    epoch := "3"
    movetel_flag := true }

/-- A print command, one of the never-status-tracked kinds. -/
def cmdC2w2 : Cmd :=
  { Cmd0 with
    command := "print"
    line := "print hello"
    argument := "hello" }

/-- A movetel command used to drive the run loop. -/
def cmdC1w : Cmd :=
  { Cmd0 with
    command := "movetel"
    line := "movetel 1 2 3"
    movetel_flag := true }

/-- A parsed slewtel command. -/
def cmdSlew : Cmd :=
  ((parse ["slewtel 10:00:00 +20:00:00 2000.0"]).toOption.getD []).headD Cmd0

/-- A parsed steptel command. -/
def cmdStep : Cmd :=
  ((parse ["steptel 12.3 45.6"]).toOption.getD []).headD Cmd0

/-- A parsed movefilter command. -/
def cmdMoveFilter : Cmd :=
  ((parse ["movefilter V"]).toOption.getD []).headD Cmd0

/-- A status-3 movetel command for the status-rewrite scenario. -/
def cmdC7w : Cmd :=
  { Cmd0 with
    command := "movetel"
    line := "movetel 1 2 3"
    status := 3
    movetel_flag := true }

/-- The parsed command of a status-prefixed movetel line. -/
def cmdC8 : Cmd :=
  ((parse ["5 movetel 10:00:00 +20:00:00 2000.0"]).toOption.getD []).headD Cmd0

/-- A parsed steptel command for the unbound-name claims. -/
def cmdC10a : Cmd := ((parse ["steptel 1 2"]).toOption.getD []).headD Cmd0

/-- A parsed stepfocus command for the unbound-name claims. -/
def cmdC10b : Cmd := ((parse ["stepfocus 50"]).toOption.getD []).headD Cmd0

/-- A reply function that always reports an ERROR detail. -/
def errReply : Nat → String := fun _ => "ERROR device busy"

/-! Claim theorems. -/

/-- Claim C1 counterexample: an ERROR reply does not halt the run.  On a
two-command script where every command replies with an ERROR detail, both
lines are executed and the run records no stop line, whereas a STOP reply on
the same script halts after line 0.  This refutes the claim that an ERROR
reply is STOP-equivalent for run continuation. -/
theorem C1_counterexample :
    (runLoop false (fun _ => "ERROR camera fault") cmdsC1).2.1 = [0, 1] ∧
    (runLoop false (fun _ => "ERROR camera fault") cmdsC1).2.2 = none ∧
    (runLoop false (fun _ => "STOP") cmdsC1).2.1 = [0] ∧
    (runLoop false (fun _ => "STOP") cmdsC1).2.2 = some 0 := by
  refine ⟨by decide, by decide, by decide, by decide⟩

/-- Helper for claim C1: when no reply is STOP or QUIT, the run loop
executes every remaining line and never stops. -/
theorem runAux_all_ok (incStatus : Bool) (execFn : Nat → String)
    (h : ∀ i, execFn i ≠ "STOP" ∧ execFn i ≠ "QUIT") :
    ∀ (cmds : List Cmd) (i : Nat),
      (runAux incStatus execFn i cmds).2.1 = List.range' i cmds.length ∧
      (runAux incStatus execFn i cmds).2.2 = none := by
  intro cmds
  induction cmds with
  | nil => intro i; simp [runAux]
  | cons c rest ih =>
    intro i
    have hcond : ¬ (execFn i = "STOP" ∨ execFn i = "QUIT") := by
      rcases h i with ⟨h1, h2⟩
      tauto
    have hr := ih (i + 1)
    simp only [runAux, if_neg hcond, List.length_cons, List.range'_succ]
    exact ⟨by rw [hr.1], hr.2⟩

/-- Claim C1 amended: only a STOP or QUIT reply halts the run.  Any other
reply, including every ERROR detail reply, is logged on the generic path,
the line's status is updated as for a success, and execution proceeds: when
no reply is STOP or QUIT, all lines are executed and no stop is recorded. -/
theorem C1_amended (incStatus : Bool) (execFn : Nat → String) (cmds : List Cmd)
    (h : ∀ i, execFn i ≠ "STOP" ∧ execFn i ≠ "QUIT") :
    (runLoop incStatus execFn cmds).2.1 = List.range cmds.length ∧
    (runLoop incStatus execFn cmds).2.2 = none := by
  have hr := runAux_all_ok incStatus execFn h cmds 0
  rw [List.range_eq_range']
  exact hr

/-- Witness for claim C1 amended at a concrete one-line script whose reply
is an ERROR detail. -/
theorem C1_amended_witness :
    (runLoop false errReply [cmdC1w]).2.1 = List.range 1 ∧
    (runLoop false errReply [cmdC1w]).2.2 = none :=
  C1_amended false errReply [cmdC1w]
    (fun _ => ⟨by simp [errReply], by simp [errReply]⟩)

/-- Claim C2 counterexample: the end-to-end scenario itself.  With
increment_status off and a STOP forced on the status-5 movetel line, the
first output line is written with NO status prefix at all (the original 5
is dropped, not retained); the unreached obs line is copied through. -/
theorem C2_counterexample :
    (runLoop false (fun i => if i = 0 then "STOP" else "OK") cmdsC2).1 =
      ["movetel 10:00:00 +20:00:00 2000.0 ", "obs 1.0 bias \"x\" 1"] ∧
    pyStartsWith
      ((runLoop false (fun i => if i = 0 then "STOP" else "OK") cmdsC2).1.headD "")
      "5" = false := by
  exact ⟨by decide, by decide⟩

/-- Claim C2 amended: with increment_status disabled, a run that stops at a
status-tracked line writes that line's stored text with a trailing blank and
no status prefix whatsoever (the original status value is discarded, also
because parse already removed the status token from the stored line), and
every unreached line is copied through as its stored, re-stripped text. -/
theorem C2_amended (c : Cmd) (rest : List Cmd) (execFn : Nat → String)
    (h2 : execFn 0 = "STOP") :
    (runLoop false execFn (c :: rest)).1 =
      (c.line ++ " ") :: rest.map (fun x => pyStrip x.line) := by
  have hcond : execFn 0 = "STOP" ∨ execFn 0 = "QUIT" := Or.inl h2
  simp only [runLoop, runAux, if_pos hcond]
  simp [outLine, stripTail]

/-- Witness for claim C2 amended: a status-5 movetel command stopped at, a
print command never reached. -/
theorem C2_amended_witness :
    (runLoop false (fun _ => "STOP") [cmdC2w1, cmdC2w2]).1 =
      ["movetel 1 2 3 ", "print hello"] := by
  have h := C2_amended cmdC2w1 [cmdC2w2] (fun _ => "STOP") rfl
  rw [h]
  rfl

/-- Claim C3 counterexample: a movetel command followed by an obs line that
carries pointing fields (ra and dec, epoch defaulted) but only 8 tokens.
The parser does not copy the look-ahead fields: it fails entirely with the
IndexError from reading token 8 of the following line. -/
theorem C3_counterexample :
    parse ["movetel 1 2 3", "obs 1.0 object \"field A\" 1 u 10:00:00 +20:00:00"] =
      Except.error (PErr.indexError 0) := by
  decide

/-- Claim C3 amended: the last line of a script gets empty look-ahead
fields.  For a command whose following line tokenizes to an obs with more
than 6 tokens, the parser reads that line's tokens 6, 7 AND 8; when all
three exist, only tokens 6 and 7 (ra and dec) are returned and stored in
ra_next/dec_next - the epoch token is read into a local the source never
stores, and the command record has no next-epoch field at all; when token 8
is missing (an obs follower with pointing fields but no explicit epoch) the
whole parse fails with an IndexError.  Whatever look-ahead value parseOne
succeeds with is exactly what lands in ra_next/dec_next. -/
theorem C3_amended (lines : List String) (i : Nat) :
    (i = lines.length - 1 → lookahead lines i = Except.ok ("", "")) ∧
    (∀ lnext, i ≠ lines.length - 1 → lines.get? (i + 1) = some lnext →
      ((∀ r d e, pyLower ((tokenize lnext).headD "") = "obs" →
          (tokenize lnext).get? 6 = some r →
          (tokenize lnext).get? 7 = some d →
          (tokenize lnext).get? 8 = some e →
          lookahead lines i = Except.ok (r, d)) ∧
        (pyLower ((tokenize lnext).headD "") = "obs" →
          6 < (tokenize lnext).length →
          (tokenize lnext).get? 8 = none →
          lookahead lines i = Except.error (PErr.indexError i)))) ∧
    (∀ l c, parseOne lines i l = Except.ok c →
      ∃ pr, lookahead lines i = Except.ok pr ∧
        c.ra_next = pr.1 ∧ c.dec_next = pr.2) := by
  refine ⟨?_, ?_, ?_⟩
  · intro h
    simp [lookahead, h]
  · intro lnext hne hget
    constructor
    · intro r d e hobs h6 h7 h8
      have hlen6 : 6 < (tokenize lnext).length := by
        by_contra hc
        push_neg at hc
        rw [List.get?_eq_none.mpr hc] at h6
        exact Option.noConfusion h6
      have hlen0 : (tokenize lnext).length ≠ 0 := by omega
      simp only [lookahead, if_neg hne, hget]
      rw [if_pos hlen0, if_pos ⟨hobs, hlen6⟩, h6, h7, h8]
    · intro hobs hlen6 h8
      have hlen0 : (tokenize lnext).length ≠ 0 := by omega
      simp only [lookahead, if_neg hne, hget]
      rw [if_pos hlen0, if_pos ⟨hobs, hlen6⟩, h8]
      cases h6 : (tokenize lnext).get? 6 <;> cases h7 : (tokenize lnext).get? 7 <;> rfl
  · intro l c hpc
    cases hh : parseHead i l with
    | error e => simp [parseOne, hh] at hpc
    | ok p =>
      obtain ⟨st, l1, tk, cm, a0⟩ := p
      cases hd : dispatch i cm a0 tk with
      | error e => simp [parseOne, hh, hd] at hpc
      | ok f =>
        cases hl : lookahead lines i with
        | error e => simp [parseOne, hh, hd, hl] at hpc
        | ok pr =>
          obtain ⟨r0, d0⟩ := pr
          simp only [parseOne, hh, hd, hl] at hpc
          have hrec := Except.ok.inj hpc
          refine ⟨(r0, d0), rfl, ?_, ?_⟩
          · rw [← hrec]
          · rw [← hrec]

/-- Witness for claim C3 amended: a 9-token obs follower has its tokens 6
and 7 copied by the look-ahead. -/
theorem C3_amended_witness :
    lookahead ["x", "obs 1 2 3 4 5 6 7 8"] 0 = Except.ok ("6", "7") := by
  have h := (C3_amended ["x", "obs 1 2 3 4 5 6 7 8"] 0).2.1
      "obs 1 2 3 4 5 6 7 8" (by decide) rfl
  exact h.1 "6" "7" "8" (by decide) (by decide) (by decide) (by decide)

/-- Claim C4 counterexample: executing a parsed slewtel command (debug off,
all device calls succeeding) issues ONLY the operator prompt and returns OK;
no pointing command is ever sent, even though parse raised movetel_flag -
the absolute telescope move the claim promises never happens. -/
theorem C4_counterexample :
    (executeCommand apiOk st0 cmdSlew).result = Except.ok "OK" ∧
    (executeCommand apiOk st0 cmdSlew).calls = [DevCall.prompt "Waiting..."] ∧
    cmdSlew.movetel_flag = true := by
  exact ⟨by decide, by decide, by decide⟩

/-- Claim C4 amended: the slewtel branch of execute_command logs, blocks on
the operator acknowledgment prompt, and returns OK immediately; the local
reassignment of the command word to movetel is dead code behind that return,
so the absolute pointing command is never invoked and the telescope does not
move. -/
theorem C4_amended (api : Api) (st : ObsState) (c : Cmd)
    (hd : st.debug = false) (hc : c.command = "slewtel") :
    executeCommand api st c =
      { result := Except.ok "OK", calls := [DevCall.prompt "Waiting..."],
        current_filter := st.current_filter } := by
  simp [executeCommand, hd, hc]

/-- Witness for claim C4 amended at the parsed slewtel command. -/
theorem C4_amended_witness :
    executeCommand apiOk st0 cmdSlew =
      { result := Except.ok "OK", calls := [DevCall.prompt "Waiting..."],
        current_filter := "" } :=
  C4_amended apiOk st0 cmdSlew rfl (by decide)

/-- Claim C5 counterexample: parsing a steptel line leaves the
step_telescope action flag false (the source raises movetel_flag instead). -/
theorem C5_counterexample : cmdStep.steptel_flag = false := by decide

/-- Claim C5 amended: parsing a steptel line stores its two positional
tokens as ra/dec, but raises movetel_flag - steptel_flag stays false, so no
relative-offset execution path is selected; and executing the parsed steptel
command never reaches any pointing action at all: the steptel dispatch
branch raises a NameError on the unbound local raoffset before any device
call. -/
theorem C5_amended :
    cmdStep.ra = "12.3" ∧ cmdStep.dec = "45.6" ∧
    cmdStep.movetel_flag = true ∧ cmdStep.steptel_flag = false ∧
    (executeCommand apiOk st0 cmdStep).result =
      Except.error (PyExc.nameError "raoffset") ∧
    (executeCommand apiOk st0 cmdStep).calls = [] := by
  refine ⟨by decide, by decide, by decide, by decide, by decide, by decide⟩

/-- Claim C6 counterexample: a movefilter command executed against a device
whose set_filter raises propagates the AzcamError out of execute_command as
an uncaught exception instead of converting it to an ERROR reply. -/
theorem C6_counterexample :
    (executeCommand apiFilterJam st0 cmdMoveFilter).result =
      Except.error (PyExc.azcamError "filter jam") := by
  decide

/-- Claim C6 amended: only the wrapped call sites convert AzcamError to an
ERROR reply - for the movetel flag action a failing telescope.move raw
command yields the reply ERROR detail - while the set_filter call of the
movefilter action is unwrapped, so its AzcamError escapes execute_command
as an exception. -/
theorem C6_amended (api : Api) (st : ObsState) (ra dec ep filt m1 m2 : String)
    (hd : st.debug = false)
    (h1 : api (DevCall.rcommand
      ("telescope.move " ++ ra ++ " " ++ dec ++ " " ++ ep)) = Except.error m1)
    (h2 : api (DevCall.setFilter filt) = Except.error m2)
    (h3 : ¬ filt = st.current_filter) :
    (executeCommand api st
      { Cmd0 with
        command := "movetel"
        ra := ra
        dec := dec
        epoch := ep
        movetel_flag := true }).result = Except.ok ("ERROR " ++ m1) ∧
    (executeCommand api st
      { Cmd0 with
        command := "movefilter"
        filter := filt
        movefilter_flag := true }).result =
      Except.error (PyExc.azcamError m2) := by
  constructor
  · simp [executeCommand, flagsPhase, filterPhase, telPhase, hd, Cmd0, h1]
  · simp [executeCommand, flagsPhase, filterPhase, hd, Cmd0, h2, h3]

/-- Witness for claim C6 amended at concrete values. -/
theorem C6_amended_witness :
    (executeCommand apiC6w st0
      { Cmd0 with
        command := "movetel"
        ra := "1"
        dec := "2"
        epoch := "3"
        movetel_flag := true }).result = Except.ok ("ERROR " ++ "tel fault") ∧
    (executeCommand apiC6w st0
      { Cmd0 with
        command := "movefilter"
        filter := "V"
        movefilter_flag := true }).result =
      Except.error (PyExc.azcamError "jam") :=
  C6_amended apiC6w st0 "1" "2" "3" "V" "tel fault" "jam" rfl rfl rfl (by decide)

/-- Claim C7 confirmed: with increment_status enabled, a status-tracked line
that completes (reply neither STOP nor QUIT) is written with status
previous + 1, absent (-1) treated as 0; a line at which the run stops is
written with that normalized status unchanged. -/
theorem C7_status_rewrite (c : Cmd) (rest : List Cmd) (execFn : Nat → String)
    (h : noStatusCmds.contains c.command = false) :
    ((execFn 0 ≠ "STOP" ∧ execFn 0 ≠ "QUIT") →
      (runLoop true execFn (c :: rest)).1.headD "" =
        toString ((if c.status = -1 then 0 else c.status) + 1) ++ " " ++ c.line) ∧
    (execFn 0 = "STOP" →
      (runLoop true execFn (c :: rest)).1.headD "" =
        toString (if c.status = -1 then 0 else c.status) ++ " " ++ c.line) := by
  have hmem : ¬ (c.command ∈ noStatusCmds) := by simpa using h
  constructor
  · rintro ⟨h1, h2⟩
    have hcond : ¬ (execFn 0 = "STOP" ∨ execFn 0 = "QUIT") := by tauto
    simp only [runLoop, runAux, if_neg hcond]
    simp [outLine, hmem]
  · intro h1
    have hcond : execFn 0 = "STOP" ∨ execFn 0 = "QUIT" := Or.inl h1
    simp only [runLoop, runAux, if_pos hcond]
    simp [outLine, hmem]

/-- Witness for claim C7 at a status-3 movetel line: completion writes
status 4, a stop writes status 3 unchanged. -/
theorem C7_status_rewrite_witness :
    (runLoop true (fun _ => "OK") [cmdC7w]).1.headD "" = "4 movetel 1 2 3" ∧
    (runLoop true (fun _ => "STOP") [cmdC7w]).1.headD "" = "3 movetel 1 2 3" := by
  constructor
  · exact (C7_status_rewrite cmdC7w [] (fun _ => "OK") (by decide)).1
      ⟨by decide, by decide⟩
  · exact (C7_status_rewrite cmdC7w [] (fun _ => "STOP") (by decide)).2 rfl

/-- Claim C8 counterexample: a line with an explicit status code is NOT
stored as the trimmed original - the status token is stripped from the
stored raw line, so re-serializing the stored lines cannot reconstruct it. -/
theorem C8_counterexample :
    cmdC8.line = "movetel 10:00:00 +20:00:00 2000.0" ∧
    cmdC8.line ≠ "5 movetel 10:00:00 +20:00:00 2000.0" := by
  exact ⟨by decide, by decide⟩

/-- Claim C8 amended: for comment lines and for lines whose first token is
not all digits, the stored raw line equals the (already trimmed) input line
exactly; for a line carrying an explicit status code the stored line is the
input with the status token's characters lstripped off the front and the
remainder re-trimmed - the status prefix itself is not preserved. -/
theorem C8_amended (lines : List String) (i : Nat) (l : String) (c : Cmd)
    (hpc : parseOne lines i l = Except.ok c) :
    (isCommentStart l = true → c.line = l) ∧
    (∀ t0 ts, isCommentStart l = false → tokenize l = t0 :: ts →
      (pyIsdigit t0 = false → c.line = l) ∧
      (pyIsdigit t0 = true → c.line = pyStrip (pyLstripSet l t0))) := by
  cases hh : parseHead i l with
  | error e => simp [parseOne, hh] at hpc
  | ok p =>
    obtain ⟨st, l1, tk, cm, a0⟩ := p
    cases hd : dispatch i cm a0 tk with
    | error e => simp [parseOne, hh, hd] at hpc
    | ok f =>
      cases hl : lookahead lines i with
      | error e => simp [parseOne, hh, hd, hl] at hpc
      | ok pr =>
        obtain ⟨r0, d0⟩ := pr
        simp only [parseOne, hh, hd, hl] at hpc
        have hrec := Except.ok.inj hpc
        have hcl : c.line = l1 := by rw [← hrec]
        constructor
        · intro hcom
          simp only [parseHead, hcom, if_true] at hh
          have ht := Except.ok.inj hh
          have hl1 : l = l1 := congrArg (fun q => q.2.1) ht
          rw [hcl, ← hl1]
        · intro t0 ts hncom htok
          simp only [parseHead, hncom, Bool.false_eq_true, if_false, htok] at hh
          constructor
          · intro hnd
            simp only [List.get?, hnd, Bool.false_eq_true, if_false] at hh
            have ht := Except.ok.inj hh
            have hl1 : l = l1 := congrArg (fun q => q.2.1) ht
            rw [hcl, ← hl1]
          · intro hdg
            simp only [List.get?, hdg, if_true, List.drop_succ_cons,
              List.drop_zero] at hh
            cases hts : (ts.get? 0) with
            | none => rw [hts] at hh; exact absurd hh (by simp)
            | some c0 =>
              rw [hts] at hh
              have ht := Except.ok.inj hh
              have hl1 : pyStrip (pyLstripSet l t0) = l1 :=
                congrArg (fun q => q.2.1) ht
              rw [hcl, ← hl1]

/-- Witness for claim C8 amended: a status-less movetel line is stored
exactly as given. -/
theorem C8_amended_witness :
    (((parse ["movetel 1 2 3"]).toOption.getD []).headD Cmd0).line =
      "movetel 1 2 3" := by
  have h := C8_amended ["movetel 1 2 3"] 0 "movetel 1 2 3"
      (((parse ["movetel 1 2 3"]).toOption.getD []).headD Cmd0) (by decide)
  exact (h.2 "movetel" ["1", "2", "3"] (by decide) (by decide)).1 (by decide)

/-- Claim C9, the code bug it names: read_file only skips a raw line that is
exactly one newline; a whitespace-only line such as three blanks before the
newline is stripped to the empty string and kept, and parsing that empty
line raises an IndexError on the first token instead of being ignored. -/
theorem C9_blank_line_bug :
    readLines ["   \n"] = [""] ∧
    readLines ["\n"] = [] ∧
    parse [""] = Except.error (PErr.indexError 0) := by
  refine ⟨by decide, by decide, by decide⟩

/-- Claim C10 confirmed: with debug off, executing any parsed steptel
command raises the NameError on the unbound local raoffset, and executing
any command with the move-focus flag set (a stepfocus line) raises the
NameError on the unbound local focus as soon as its step_focus device call
has returned - neither can ever complete with a sentinel reply. -/
theorem C10_name_errors (api : Api) (st : ObsState) (ca cb : Cmd) (r : String)
    (hd : st.debug = false)
    (h1 : ca.command = "steptel")
    (h2 : cb.command = "stepfocus")
    (h3 : cb.movefocus_flag = true)
    (hok : api (DevCall.stepFocus cb.argument) = Except.ok r) :
    (executeCommand api st ca).result = Except.error (PyExc.nameError "raoffset") ∧
    (executeCommand api st cb).result = Except.error (PyExc.nameError "focus") := by
  constructor
  · simp [executeCommand, hd, h1]
  · simp [executeCommand, flagsPhase, hd, h2, h3, hok]

/-- Witness for claim C10 at the parsed steptel and stepfocus commands. -/
theorem C10_name_errors_witness :
    (executeCommand apiOk st0 cmdC10a).result =
      Except.error (PyExc.nameError "raoffset") ∧
    (executeCommand apiOk st0 cmdC10b).result =
      Except.error (PyExc.nameError "focus") :=
  C10_name_errors apiOk st0 cmdC10a cmdC10b "ok" rfl (by decide) (by decide)
    (by decide) rfl
